import Mathlib

/-!
Shallow embedding of `dtsnmp/vss_aggregator_mib.py`: the `VSSAggregatorMIB`
connector class and its module-level extraction helpers
(`calculate_network_metrics`, `calculate_port_metrics`, `get_vss_properties`).

The external collaborators imported from the `processing` and `poller`
modules (`process_metrics`, `split_oid_index`, `convert_to_readable_time`,
`Poller.snmp_connect_bulk`) are not part of the excerpt; they are modelled
from the specification's contracts (sections 4.2, 4.3, 4.4 and 6), noted on
each definition.  The time-formatting transform is kept fully abstract: every
theorem quantifies over it as the parameter `cvt`.

Conventions of the embedding:
* a decoded SNMP value object is abstracted by its three observations used in
  the module: `str(v)`, `v.prettyPrint()` and `float(v)` (the last one is an
  `Option ℚ`, `none` when the coercion would raise `ValueError`);
* raised Python exceptions become the `Except PyError` monad;
* the transport adapter is a parameter `Transport` mapping a bulk request to
  the (lazy) sequence of response envelopes it yields; each poll method also
  returns the list of bulk requests it issued, so that "issues exactly one
  request with these parameters" is a provable statement.
-/

namespace VSSAgg

/-- Abstraction of a decoded SNMP value object as the module observes it:
`render` is `str(v)`, `pretty` is `v.prettyPrint()`, and `num` is the result
of `float(v)` when that coercion succeeds (`none` when `float()` raises). -/
structure SnmpVal where
  render : String
  pretty : String := ""
  num : Option ℚ := none
deriving Repr, DecidableEq

/-- One response envelope `(errorIndication, errorStatus, errorIndex, varBinds)`
as unpacked on line 42 of the source.  `errorIndication` is `none` for `None`;
`errorStatus` is carried as its numeric value together with its
`prettyPrint()` rendering; `errorIndex` is `0` when unset; each variable
binding is an `(oid, value)` pair. -/
structure Envelope where
  errorIndication : Option String := none
  errorStatus : Nat := 0
  errorStatusPretty : String := ""
  errorIndex : Nat := 0
  varBinds : List (String × SnmpVal) := []
deriving Repr, DecidableEq

/-- Python exceptions raised by the embedded code.  The two `raise Exception`
sites of `poll_properties` are distinguished by raise site, matching the
specification's taxonomy (TransportError for the `errorIndication` raise on
line 44, ProtocolError for the `errorStatus` raise on lines 46-47). -/
inductive PyError where
  | transportError (msg : String)
  | protocolError (msg : String)
  | indexError
  | attributeError (name : String)
  | stopIteration
  | valueError (msg : String)
deriving Repr, DecidableEq

/-- Truthiness of an optional string, as Python evaluates `if errorIndication:`
(`None` and the empty string are falsy). -/
def pyTruthy : Option String → Bool
  | none => false
  | some s => s ≠ ""

/-- Python list indexing `l[i]` for a non-negative index: raises `IndexError`
when out of range. -/
def pyGet {α : Type} (l : List α) (i : Nat) : Except PyError α :=
  match l.get? i with
  | some a => .ok a
  | none => .error .indexError

/-- Python `float(v)` on a decoded value: raises `ValueError` when the value
is not numeric. -/
def pyFloat (v : SnmpVal) : Except PyError ℚ :=
  match v.num with
  | some q => .ok q
  | none => .error (.valueError v.render)

/-- Python substring membership `needle in hay`. -/
def pyIn (needle hay : String) : Bool :=
  (List.range (hay.data.length + 1)).any fun i => needle.data.isPrefixOf (hay.data.drop i)

/-- Python `s.lower()`: character-wise lowercasing. -/
def pyLower (s : String) : String := ⟨s.data.map Char.toLower⟩

instance {ε α : Type} [DecidableEq ε] [DecidableEq α] : DecidableEq (Except ε α) := fun x y =>
  match x, y with
  | .error a, .error b =>
    if h : a = b then .isTrue (by rw [h]) else .isFalse (fun hc => h (by cases hc; rfl))
  | .error _, .ok _ => .isFalse (fun hc => by cases hc)
  | .ok _, .error _ => .isFalse (fun hc => by cases hc)
  | .ok a, .ok b =>
    if h : a = b then .isTrue (by rw [h]) else .isFalse (fun hc => h (by cases hc; rfl))

/-- One bulk request handed to `Poller.snmp_connect_bulk`: the OID list plus
the optional timeout and retry count (`none` when the call relies on the
transport's defaults).  Modelled from the spec: the transport adapter
contract `bulkPoll(oidList, timeout, retries)` of section 6. -/
structure BulkRequest where
  oids : List String
  timeout : Option Nat := none
  retries : Option Nat := none
deriving Repr, DecidableEq

/-- Modelled from the spec: the transport adapter (the `poller` module, not
part of the excerpt) as a function from a bulk request to the sequence of
response envelopes its generator yields. -/
abbrev Transport : Type := BulkRequest → List Envelope

/-- A metric record dict as built by the extraction functions:
`{'value': ..., 'dimension': {...}, 'is_absolute_number': ...}`. -/
structure MetricRecord where
  value : ℚ
  dimension : List (String × String)
  is_absolute_number : Bool
deriving Repr, DecidableEq

/-- The metrics accumulator dict: named buckets of metric records, in
insertion order. -/
abbrev Buckets : Type := List (String × List MetricRecord)

/-- Python `metrics.get(k, [])` on the accumulator (first matching key). -/
def getBucket : Buckets → String → List MetricRecord
  | [], _ => []
  | (k', rs) :: rest, k => if k' = k then rs else getBucket rest k

/-- Python `metrics.setdefault(k, []).append(r)` on the accumulator: appends
to the bucket named `k`, creating it (at the end, as dict insertion does)
when absent. -/
def appendBucket : Buckets → String → MetricRecord → Buckets
  | [], k, r => [(k, [r])]
  | (k', rs) :: rest, k, r =>
    if k' = k then (k', rs ++ [r]) :: rest else (k', rs) :: appendBucket rest k r

/-- Modelled from the spec (section 4.3): `split_oid_index` from the
`processing` module (not under the excerpt): given a full OID string, returns
the trailing index component identifying the table row (the final dotted
component). -/
def split_oid_index (oid : String) : String :=
  ⟨(oid.data.reverse.takeWhile fun c => c ≠ '.').reverse⟩

/-- Modelled from the spec (section 4.2): `process_metrics` from the
`processing` module (not under the excerpt): for each envelope of the
response sequence, invokes the extraction function with that envelope's
binding list and the shared accumulator; errors raised by the extraction
function propagate and abort the poll. -/
def process_metrics (envs : List Envelope)
    (f : List (String × SnmpVal) → Buckets → Except PyError Buckets) :
    Except PyError Buckets :=
  envs.foldlM (fun acc env => f env.varBinds acc) []

/-- The fixed property catalog of `poll_properties` (source lines 30-37). -/
def mib_properties : List String :=
  ["1.3.6.1.4.1.21671.4.1.1",  -- productID
   "1.3.6.1.4.1.21671.4.1.2",  -- productVersion
   "1.3.6.1.4.1.21671.4.2.1",  -- numberOfPorts
   "1.3.6.1.4.1.21671.4.2.2",  -- chassisTemperature
   "1.3.6.1.4.1.21671.4.2.3",  -- coreTemperature
   "1.3.6.1.4.1.21671.4.2.4"]  -- numberOfPowerSupplies

/-- `get_vss_properties(varBinds, props)` (source lines 149-167): positional
extraction of eight named fields from the binding list, with the time
transform `cvt` (standing for `convert_to_readable_time`, not part of the
excerpt) applied to `sysUpTime` and `sysORLastChange`.  The props dict is
returned instead of mutated; an out-of-range access raises `IndexError`. -/
def get_vss_properties (cvt : String → String)
    (varBinds : List (String × SnmpVal)) :
    Except PyError (List (String × String)) := do
  let vb0 ← pyGet varBinds 0
  let vb1 ← pyGet varBinds 1
  let vb2 ← pyGet varBinds 2
  let vb3 ← pyGet varBinds 3
  let vb4 ← pyGet varBinds 4
  let vb5 ← pyGet varBinds 5
  let vb6 ← pyGet varBinds 6
  let vb7 ← pyGet varBinds 7
  .ok [("sysDescr", vb0.2.render),
       ("sysObjectID", vb1.2.render),
       ("sysUpTime", cvt vb2.2.render),
       ("sysContact", vb3.2.render),
       ("sysName", vb4.2.render),
       ("sysLocation", vb5.2.render),
       ("sysServices", vb6.2.render),
       ("sysORLastChange", cvt vb7.2.render)]

/-- The bulk request issued by `poll_properties` (source lines 38-40):
`timeout = 2`, `retries = 1`. -/
def poll_properties_request : BulkRequest :=
  { oids := mib_properties, timeout := some 2, retries := some 1 }

/-- `VSSAggregatorMIB.poll_properties()` (source lines 29-51).  Issues one
bulk request, takes `next(gen)` — the first envelope (raising
`StopIteration` if the generator is exhausted) — validates it, and extracts
the properties.  Line 47's `errorIndex and varBinds[int(errorIndex) - 1][0]
or '?'` is rendered faithfully: a falsy (zero) index or a falsy (empty) OID
falls back to `'?'`, and an out-of-range index raises `IndexError` while the
message is being built. -/
def poll_properties (cvt : String → String) (transport : Transport) :
    Except PyError (List (String × String)) × List BulkRequest :=
  let req := poll_properties_request
  (match (transport req).head? with
   | none => .error .stopIteration
   | some env =>
     if pyTruthy env.errorIndication then
       .error (.transportError (env.errorIndication.getD ""))
     else if env.errorStatus ≠ 0 then
       match (if env.errorIndex ≠ 0 then
                (pyGet env.varBinds (env.errorIndex - 1)).map
                  (fun vb => if vb.1 ≠ "" then vb.1 else "?")
              else .ok "?") with
       | .error e => .error e
       | .ok loc =>
         .error (.protocolError (env.errorStatusPretty ++ " at " ++ loc))
     else
       get_vss_properties cvt env.varBinds,
   [req])

/-- `calculate_network_metrics(varBinds, metrics)` (source lines 105-116):
per-row CPU extraction — reads `varBinds[0]`, takes the trailing OID index as
the `Index` dimension and `float(varBinds[0][1])` as the value, and appends
one absolute-number record to the `cpu` bucket. -/
def calculate_network_metrics (varBinds : List (String × SnmpVal))
    (metrics : Buckets) : Except PyError Buckets :=
  match pyGet varBinds 0 with
  | .error e => .error e
  | .ok vb0 =>
    match pyFloat vb0.2 with
    | .error e => .error e
    | .ok v =>
      .ok (appendBucket metrics "cpu"
        { value := v, dimension := [("Index", split_oid_index vb0.1)],
          is_absolute_number := true })

/-- The fixed list of memory-like storage labels (source line 127). -/
def memory_types : List String := ["memory", "swap space", "ram"]

/-- `calculate_port_metrics(varBinds, metrics)` (source lines 119-146):
per-row storage extraction — label from `varBinds[0][1].prettyPrint()`, size
and used from `float(varBinds[1][1])` and `float(varBinds[2][1])`,
utilisation `used / size * 100` guarded by `size > 0` (else `0`), and the
record appended to `memory` when the lowercased label contains one of
`memory_types`, else to `disk`. -/
def calculate_port_metrics (varBinds : List (String × SnmpVal))
    (metrics : Buckets) : Except PyError Buckets :=
  match pyGet varBinds 0 with
  | .error e => .error e
  | .ok vb0 =>
    match pyGet varBinds 1 with
    | .error e => .error e
    | .ok vb1 =>
      match pyFloat vb1.2 with
      | .error e => .error e
      | .ok size =>
        match pyGet varBinds 2 with
        | .error e => .error e
        | .ok vb2 =>
          match pyFloat vb2.2 with
          | .error e => .error e
          | .ok used =>
            let name := vb0.2.pretty
            let utilisation : ℚ := if size > 0 then used / size * 100 else 0
            let storage : MetricRecord :=
              { value := utilisation, dimension := [("Storage", name)],
                is_absolute_number := true }
            if memory_types.any (fun x => pyIn x (pyLower name)) then
              .ok (appendBucket metrics "memory" storage)
            else
              .ok (appendBucket metrics "disk" storage)

/-- The OID catalog of `_poll_NetworkActivityStats` (source lines 69-85):
fifteen string literals, each written with a leading space before the dot. -/
def cpu_metrics : List String :=
  [" .1.3.6.1.4.1.21671.4.6.1.1.2",  -- naPortID
   " .1.3.6.1.4.1.21671.4.6.1.1.3",  -- naRxThroughput
   " .1.3.6.1.4.1.21671.4.6.1.1.4",  -- naTxThroughput
   " .1.3.6.1.4.1.21671.4.6.1.1.5",  -- naPeakRxThroughput
   " .1.3.6.1.4.1.21671.4.6.1.1.6",  -- naPeakTxThroughput
   " .1.3.6.1.4.1.21671.4.6.1.1.7",  -- naRxUtilization
   " .1.3.6.1.4.1.21671.4.6.1.1.8",  -- naTxUtilization
   " .1.3.6.1.4.1.21671.4.6.1.1.11",  -- naGoodPacketsRx
   " .1.3.6.1.4.1.21671.4.6.1.1.12",  -- naGoodPacketsTx
   " .1.3.6.1.4.1.21671.4.6.1.1.13",  -- naBadPacketsRx
   " .1.3.6.1.4.1.21671.4.6.1.1.14",  -- naBadPacketsTx
   " .1.3.6.1.4.1.21671.4.6.1.1.19",  -- naUnicastsRx
   " .1.3.6.1.4.1.21671.4.6.1.1.20",  -- naUnicastsTx
   " .1.3.6.1.4.1.21671.4.6.1.1.21",  -- naOverflowDropsRx
   " .1.3.6.1.4.1.21671.4.6.1.1.22"]  -- naOverflowDropsTx

/-- `VSSAggregatorMIB._poll_NetworkActivityStats()` (source lines 68-88):
one bulk request over `cpu_metrics` with default timeout and retries, fed
row by row through `calculate_network_metrics`. -/
def _poll_NetworkActivityStats (transport : Transport) :
    Except PyError Buckets × List BulkRequest :=
  let req : BulkRequest := { oids := cpu_metrics }
  (process_metrics (transport req) calculate_network_metrics, [req])

/-- The OID catalog of `_poll_PortStatus` (source lines 91-99).  The last
five string literals are written without separating commas, so Python's
implicit literal concatenation joins them into a single third element — the
list has three elements, not seven. -/
def storage_metrics : List String :=
  ["1.3.6.1.4.1.21671.4.3.1.1.2",  -- portID
   "1.3.6.1.4.1.21671.4.3.1.1.3",  -- portName
   "1.3.6.1.4.1.21671.4.3.1.1.4"  -- port Class
     ++ "1.3.6.1.4.1.21671.4.3.1.1.5"  -- portState
     ++ "1.3.6.1.4.1.21671.4.3.1.1.6"  -- portSpeed
     ++ "1.3.6.1.4.1.21671.4.3.1.1.7"  -- portDuplex
     ++ "1.3.6.1.4.1.21671.4.3.1.1.8"]  -- portError

/-- `VSSAggregatorMIB._poll_PortStatus()` (source lines 90-102): one bulk
request over `storage_metrics` with default timeout and retries, fed row by
row through `calculate_port_metrics`. -/
def _poll_PortStatus (transport : Transport) :
    Except PyError Buckets × List BulkRequest :=
  let req : BulkRequest := { oids := storage_metrics }
  (process_metrics (transport req) calculate_port_metrics, [req])

/-- The method names defined by class `VSSAggregatorMIB` (source lines
26-102). -/
def vss_aggregator_methods : List String :=
  ["__init__", "poll_properties", "poll_metrics",
   "_poll_NetworkActivityStats", "_poll_PortStatus"]

/-- `VSSAggregatorMIB.poll_metrics()` (source lines 53-66).  Line 54 runs
`self._poll_NetworkActivityStats()`; line 55 then evaluates
`self._poll_storage()`, but `_poll_storage` is not among
`vss_aggregator_methods`, so the attribute lookup raises `AttributeError`
before any further line runs (line 57 would likewise raise `NameError` on
the unbound name `cpu`).  The dict assembly of lines 57-65 is therefore
unreachable. -/
def poll_metrics (transport : Transport) :
    Except PyError (List (String × List MetricRecord)) × List BulkRequest :=
  let na := _poll_NetworkActivityStats transport
  (match na.1 with
   | .error e => .error e
   | .ok _ => .error (.attributeError "_poll_storage"),
   na.2)

/-! ## Helper lemmas about the accumulator -/

theorem getBucket_appendBucket_same (m : Buckets) (k : String) (r : MetricRecord) :
    getBucket (appendBucket m k r) k = getBucket m k ++ [r] := by
  induction m with
  | nil => simp [appendBucket, getBucket]
  | cons hd tl ih =>
    obtain ⟨k0, rs⟩ := hd
    by_cases h : k0 = k
    · subst h
      simp [appendBucket, getBucket]
    · simp [appendBucket, getBucket, h, ih]

theorem getBucket_appendBucket_ne (m : Buckets) (k k' : String) (r : MetricRecord)
    (h : k' ≠ k) : getBucket (appendBucket m k r) k' = getBucket m k' := by
  induction m with
  | nil => simp [appendBucket, getBucket, Ne.symm h]
  | cons hd tl ih =>
    obtain ⟨k0, rs⟩ := hd
    by_cases h0 : k0 = k
    · subst h0
      simp [appendBucket, getBucket, Ne.symm h]
    · by_cases h1 : k0 = k'
      · subst h1
        simp [appendBucket, getBucket, h0]
      · simp [appendBucket, getBucket, h0, h1, ih]

/-! ## Claims -/

/-- C9: the `storage_metrics` catalog built inside `_poll_PortStatus` contains
exactly 3 strings, not 7: the last five string literals are written without
separating commas, so Python concatenates them into a single third element,
and the port-status bulk poll requests these 3 OIDs. -/
theorem storage_metrics_concatenation :
    storage_metrics.length = 3 ∧
    storage_metrics.get? 2 = some ("1.3.6.1.4.1.21671.4.3.1.1.41.3.6.1.4.1.21671.4.3.1.1.51.3.6.1.4.1.21671.4.3.1.1.61.3.6.1.4.1.21671.4.3.1.1.71.3.6.1.4.1.21671.4.3.1.1.8") ∧
    ∀ transport : Transport,
      (_poll_PortStatus transport).2 = [{ oids := storage_metrics }] :=
  ⟨rfl, by decide, fun _ => rfl⟩

/-- C10: every one of the 15 entries of the `cpu_metrics` catalog built inside
`_poll_NetworkActivityStats` begins with a leading space before the dot, and
the list is forwarded to the transport's bulk poll unmodified, with no
trimming or normalisation. -/
theorem cpu_metrics_leading_spaces :
    cpu_metrics.length = 15 ∧
    cpu_metrics.all (fun s => [' ', '.'].isPrefixOf s.data) = true ∧
    ∀ transport : Transport,
      (_poll_NetworkActivityStats transport).2 = [{ oids := cpu_metrics }] :=
  ⟨rfl, by decide, fun _ => rfl⟩

/-- C1: contrary to the claim, a successful envelope (no error indication,
zero error status) with exactly as many bindings as the 6-entry property
catalog makes the extraction fail: `get_vss_properties` reads positional
fields up to `varBinds[7]`, so the access `varBinds[6]` raises `IndexError`
and `poll_properties` returns no mapping at all. -/
theorem poll_properties_six_bindings_index_error :
    (poll_properties id (fun _ =>
      [{ varBinds :=
          [("1.3.6.1.4.1.21671.4.1.1", { render := "ModelX" }),
           ("1.3.6.1.4.1.21671.4.1.2", { render := "2.1" }),
           ("1.3.6.1.4.1.21671.4.2.1", { render := "48" }),
           ("1.3.6.1.4.1.21671.4.2.2", { render := "35" }),
           ("1.3.6.1.4.1.21671.4.2.3", { render := "40" }),
           ("1.3.6.1.4.1.21671.4.2.4", { render := "2" })] }])).1
      = .error .indexError := by decide

/-- C2: contrary to the claim, `poll_metrics()` never returns the metrics
mapping: `_poll_storage` is not among the methods of `VSSAggregatorMIB`, so
once the network-activity sub-poll has returned, line 55's
`self._poll_storage()` raises `AttributeError` (and line 57 would raise
`NameError` on the unbound name `cpu`). -/
theorem poll_metrics_attribute_error (transport : Transport)
    (h : ∃ b, (_poll_NetworkActivityStats transport).1 = .ok b) :
    vss_aggregator_methods.contains "_poll_storage" = false ∧
    (poll_metrics transport).1 = .error (.attributeError "_poll_storage") := by
  obtain ⟨b, hb⟩ := h
  exact ⟨by decide, by simp [poll_metrics, hb]⟩

/-- Witness for C2: on a transport yielding no envelopes the sub-poll
trivially succeeds and `poll_metrics` still fails with the attribute error. -/
theorem poll_metrics_attribute_error_witness :
    vss_aggregator_methods.contains "_poll_storage" = false ∧
    (poll_metrics (fun _ => [])).1 = .error (.attributeError "_poll_storage") :=
  poll_metrics_attribute_error (fun _ => []) ⟨[], rfl⟩

/-- C4: an envelope whose `errorIndication` is set (non-empty) makes
`poll_properties` fail with a TransportError carrying that indication text
verbatim, whatever the error status, error index and bindings are — neither
is evaluated. -/
theorem poll_properties_transport_error (cvt : String → String)
    (transport : Transport) (env : Envelope) (rest : List Envelope) (s : String)
    (henv : transport poll_properties_request = env :: rest)
    (hs : env.errorIndication = some s) (hne : s ≠ "") :
    (poll_properties cvt transport).1 = .error (.transportError s) := by
  simp [poll_properties, henv, pyTruthy, hs, hne]

/-- Witness for C4 at a concrete envelope with a timeout indication. -/
theorem poll_properties_transport_error_witness :
    (poll_properties id (fun _ =>
      [{ errorIndication := some "No SNMP response received before timeout",
         errorStatus := 3, errorIndex := 1,
         varBinds := [("1.3.6.1.4.1.21671.4.1.1", { render := "x" })] }])).1
      = .error (.transportError "No SNMP response received before timeout") :=
  poll_properties_transport_error id _ _ [] _ rfl rfl (by decide)

/-- C3: an envelope with no error indication but a truthy error status makes
`poll_properties` fail with a ProtocolError whose message embeds the
human-readable status and, when the error index is nonzero, the OID of the
binding at zero-based position `errorIndex - 1`; when the index is zero the
message carries the `?` placeholder instead. -/
theorem poll_properties_protocol_error (cvt : String → String)
    (transport : Transport) (env : Envelope) (rest : List Envelope)
    (henv : transport poll_properties_request = env :: rest)
    (hind : pyTruthy env.errorIndication = false)
    (hstat : env.errorStatus ≠ 0) :
    (∀ vb : String × SnmpVal, env.errorIndex ≠ 0 →
        env.varBinds[env.errorIndex - 1]? = some vb → vb.1 ≠ "" →
        (poll_properties cvt transport).1 =
          .error (.protocolError (env.errorStatusPretty ++ " at " ++ vb.1)))
    ∧ (env.errorIndex = 0 →
        (poll_properties cvt transport).1 =
          .error (.protocolError (env.errorStatusPretty ++ " at " ++ "?"))) := by
  constructor
  · intro vb hi hget hne
    simp [poll_properties, henv, hind, hstat, hi, pyGet, hget, Except.map, hne]
  · intro hi
    simp [poll_properties, henv, hind, hstat, hi]

/-- Witness for C3: with `errorIndex = 2` the message names the OID at
zero-based position 1 of the bindings. -/
theorem poll_properties_protocol_error_witness :
    (poll_properties id (fun _ =>
      [{ errorStatus := 5, errorStatusPretty := "genErr", errorIndex := 2,
         varBinds := [("1.3.6.1.4.1.21671.4.1.1", { render := "a" }),
                      ("1.3.6.1.4.1.21671.4.1.2", { render := "b" })] }])).1
      = .error (.protocolError ("genErr" ++ " at " ++ "1.3.6.1.4.1.21671.4.1.2")) := by
  have h := poll_properties_protocol_error id
    (fun _ =>
      [{ errorStatus := 5, errorStatusPretty := "genErr", errorIndex := 2,
         varBinds := [("1.3.6.1.4.1.21671.4.1.1", { render := "a" }),
                      ("1.3.6.1.4.1.21671.4.1.2", { render := "b" })] }])
    { errorStatus := 5, errorStatusPretty := "genErr", errorIndex := 2,
      varBinds := [("1.3.6.1.4.1.21671.4.1.1", { render := "a" }),
                   ("1.3.6.1.4.1.21671.4.1.2", { render := "b" })] }
    [] rfl rfl (by decide)
  exact h.1 ("1.3.6.1.4.1.21671.4.1.2", { render := "b" }) (by decide) rfl (by decide)

/-- C8: `poll_properties` issues exactly one bulk request — over the property
catalog, with timeout 2 and retry count 1 — and its outcome depends only on
the first envelope of the transport's response sequence: two transports
agreeing on that first envelope give identical results. -/
theorem poll_properties_single_request (cvt : String → String)
    (transport : Transport) :
    (poll_properties cvt transport).2 =
      [{ oids := mib_properties, timeout := some 2, retries := some 1 }]
    ∧ ∀ t2 : Transport,
        (t2 poll_properties_request).head? =
          (transport poll_properties_request).head? →
        poll_properties cvt t2 = poll_properties cvt transport := by
  refine ⟨rfl, fun t2 h => ?_⟩
  simp [poll_properties, h]

/-- Witness for C8: a transport with a second envelope (here with a nonzero
error status) gives the same result as one without it. -/
theorem poll_properties_single_request_witness :
    (poll_properties id (fun _ => [])).2 =
      [{ oids := mib_properties, timeout := some 2, retries := some 1 }]
    ∧ poll_properties id
        (fun _ => [{ varBinds := [] }, { errorStatus := 5 }])
      = poll_properties id (fun _ => [{ varBinds := [] }]) :=
  ⟨(poll_properties_single_request id _).1,
   (poll_properties_single_request id (fun _ => [{ varBinds := [] }])).2 _ rfl⟩

/-- C7: each row passed to the CPU extraction function appends exactly one
metric record to the `cpu` bucket of the accumulator — its value the float
coercion of the first binding's value, a single `Index` dimension holding the
trailing OID-index suffix of the first binding's OID, `is_absolute_number`
true — and leaves every other bucket unchanged. -/
theorem calculate_network_metrics_appends_cpu
    (varBinds : List (String × SnmpVal)) (metrics : Buckets)
    (vb0 : String × SnmpVal) (v : ℚ)
    (h0 : varBinds[0]? = some vb0) (hv : vb0.2.num = some v) :
    calculate_network_metrics varBinds metrics =
      .ok (appendBucket metrics "cpu"
        { value := v, dimension := [("Index", split_oid_index vb0.1)],
          is_absolute_number := true })
    ∧ getBucket (appendBucket metrics "cpu"
        { value := v, dimension := [("Index", split_oid_index vb0.1)],
          is_absolute_number := true }) "cpu"
      = getBucket metrics "cpu" ++
        [{ value := v, dimension := [("Index", split_oid_index vb0.1)],
           is_absolute_number := true }]
    ∧ ∀ k, k ≠ "cpu" →
        getBucket (appendBucket metrics "cpu"
          { value := v, dimension := [("Index", split_oid_index vb0.1)],
            is_absolute_number := true }) k = getBucket metrics k := by
  refine ⟨?_, getBucket_appendBucket_same _ _ _,
    fun k hk => getBucket_appendBucket_ne _ _ _ _ hk⟩
  simp [calculate_network_metrics, pyGet, h0, pyFloat, hv]

/-- Witness for C7 at a concrete walked row: the trailing suffix `7` of the
row's OID becomes the `Index` dimension and the value is the float of the
binding. -/
theorem calculate_network_metrics_appends_cpu_witness :
    calculate_network_metrics
      [(" .1.3.6.1.4.1.21671.4.6.1.1.3.7", { render := "42", num := some 42 })]
      []
      = .ok [("cpu", [{ value := 42, dimension := [("Index", "7")],
                        is_absolute_number := true }])] := by
  have h := (calculate_network_metrics_appends_cpu
    [(" .1.3.6.1.4.1.21671.4.6.1.1.3.7", { render := "42", num := some 42 })]
    []
    (" .1.3.6.1.4.1.21671.4.6.1.1.3.7", { render := "42", num := some 42 })
    42 rfl rfl).1
  exact h.trans (by decide)

/-- C5: every storage row's emitted metric value is `used / size * 100` when
`size > 0` and `0` otherwise — the guard avoids the division-by-zero fault
and the extraction returns successfully. -/
theorem calculate_port_metrics_utilisation
    (varBinds : List (String × SnmpVal)) (metrics : Buckets)
    (vb0 vb1 vb2 : String × SnmpVal) (size used : ℚ)
    (h0 : varBinds[0]? = some vb0) (h1 : varBinds[1]? = some vb1)
    (h2 : varBinds[2]? = some vb2)
    (hs : vb1.2.num = some size) (hu : vb2.2.num = some used) :
    ∃ k, calculate_port_metrics varBinds metrics =
      .ok (appendBucket metrics k
        { value := if size > 0 then used / size * 100 else 0,
          dimension := [("Storage", vb0.2.pretty)],
          is_absolute_number := true }) := by
  cases hmem : memory_types.any (fun x => pyIn x (pyLower vb0.2.pretty)) with
  | true =>
    exact ⟨"memory",
      by simp [calculate_port_metrics, pyGet, h0, h1, h2, pyFloat, hs, hu, hmem]⟩
  | false =>
    exact ⟨"disk",
      by simp [calculate_port_metrics, pyGet, h0, h1, h2, pyFloat, hs, hu, hmem]⟩

/-- Witness for C5: `size = 0, used = 0` yields utilisation `0` with no
fault, and `size = 200, used = 50` yields `25`. -/
theorem calculate_port_metrics_utilisation_witness :
    (∃ k, calculate_port_metrics
      [("oid.1", { render := "", pretty := "Swap Space" }),
       ("oid.2", { render := "0", num := some 0 }),
       ("oid.3", { render := "0", num := some 0 })] []
      = .ok (appendBucket [] k
          { value := 0, dimension := [("Storage", "Swap Space")],
            is_absolute_number := true }))
    ∧ (∃ k, calculate_port_metrics
      [("oid.1", { render := "", pretty := "/dev/sda1" }),
       ("oid.2", { render := "200", num := some 200 }),
       ("oid.3", { render := "50", num := some 50 })] []
      = .ok (appendBucket [] k
          { value := 25, dimension := [("Storage", "/dev/sda1")],
            is_absolute_number := true })) := by
  constructor
  · obtain ⟨k, hk⟩ := calculate_port_metrics_utilisation
      [("oid.1", { render := "", pretty := "Swap Space" }),
       ("oid.2", { render := "0", num := some 0 }),
       ("oid.3", { render := "0", num := some 0 })] []
      _ _ _ 0 0 rfl rfl rfl rfl rfl
    refine ⟨k, hk.trans ?_⟩
    norm_num [appendBucket]
  · obtain ⟨k, hk⟩ := calculate_port_metrics_utilisation
      [("oid.1", { render := "", pretty := "/dev/sda1" }),
       ("oid.2", { render := "200", num := some 200 }),
       ("oid.3", { render := "50", num := some 50 })] []
      _ _ _ 200 50 rfl rfl rfl rfl rfl
    refine ⟨k, hk.trans ?_⟩
    norm_num [appendBucket]

/-- C6: a storage row's record is appended to the `memory` bucket exactly
when the row's label, lowercased, contains one of the substrings `memory`,
`swap space`, `ram`, and to the `disk` bucket otherwise. -/
theorem calculate_port_metrics_classification
    (varBinds : List (String × SnmpVal)) (metrics : Buckets)
    (vb0 vb1 vb2 : String × SnmpVal) (size used : ℚ)
    (h0 : varBinds[0]? = some vb0) (h1 : varBinds[1]? = some vb1)
    (h2 : varBinds[2]? = some vb2)
    (hs : vb1.2.num = some size) (hu : vb2.2.num = some used) :
    (memory_types.any (fun x => pyIn x (pyLower vb0.2.pretty)) = true →
      calculate_port_metrics varBinds metrics =
        .ok (appendBucket metrics "memory"
          { value := if size > 0 then used / size * 100 else 0,
            dimension := [("Storage", vb0.2.pretty)],
            is_absolute_number := true }))
    ∧ (memory_types.any (fun x => pyIn x (pyLower vb0.2.pretty)) = false →
      calculate_port_metrics varBinds metrics =
        .ok (appendBucket metrics "disk"
          { value := if size > 0 then used / size * 100 else 0,
            dimension := [("Storage", vb0.2.pretty)],
            is_absolute_number := true })) := by
  constructor <;> intro hmem <;>
    simp [calculate_port_metrics, pyGet, h0, h1, h2, pyFloat, hs, hu, hmem]

/-- Witness for C6: the label `Swap Space` goes to the `memory` bucket, the
labels `C:\` and `/dev/sda1` go to the `disk` bucket. -/
theorem calculate_port_metrics_classification_witness :
    calculate_port_metrics
      [("oid.1", { render := "", pretty := "Swap Space" }),
       ("oid.2", { render := "0", num := some 0 }),
       ("oid.3", { render := "0", num := some 0 })] []
      = .ok [("memory", [{ value := 0, dimension := [("Storage", "Swap Space")],
                           is_absolute_number := true }])]
    ∧ calculate_port_metrics
      [("oid.1", { render := "", pretty := "C:\\" }),
       ("oid.2", { render := "100", num := some 100 }),
       ("oid.3", { render := "0", num := some 0 })] []
      = .ok [("disk", [{ value := 0, dimension := [("Storage", "C:\\")],
                         is_absolute_number := true }])]
    ∧ calculate_port_metrics
      [("oid.1", { render := "", pretty := "/dev/sda1" }),
       ("oid.2", { render := "100", num := some 100 }),
       ("oid.3", { render := "0", num := some 0 })] []
      = .ok [("disk", [{ value := 0, dimension := [("Storage", "/dev/sda1")],
                         is_absolute_number := true }])] := by
  refine ⟨?_, ?_, ?_⟩
  · have h := (calculate_port_metrics_classification
      [("oid.1", { render := "", pretty := "Swap Space" }),
       ("oid.2", { render := "0", num := some 0 }),
       ("oid.3", { render := "0", num := some 0 })] []
      _ _ _ 0 0 rfl rfl rfl rfl rfl).1 (by decide)
    refine h.trans ?_
    norm_num [appendBucket]
  · have h := (calculate_port_metrics_classification
      [("oid.1", { render := "", pretty := "C:\\" }),
       ("oid.2", { render := "100", num := some 100 }),
       ("oid.3", { render := "0", num := some 0 })] []
      _ _ _ 100 0 rfl rfl rfl rfl rfl).2 (by decide)
    refine h.trans ?_
    norm_num [appendBucket]
  · have h := (calculate_port_metrics_classification
      [("oid.1", { render := "", pretty := "/dev/sda1" }),
       ("oid.2", { render := "100", num := some 100 }),
       ("oid.3", { render := "0", num := some 0 })] []
      _ _ _ 100 0 rfl rfl rfl rfl rfl).2 (by decide)
    refine h.trans ?_
    norm_num [appendBucket]

end VSSAgg
